import Mathlib

/-!
Verification of the car-finance amortization engine and scenario state machine
from `src/app/simulate/car/page.tsx`.

Numbers are modelled as exact rationals (`ℚ`); `round2` mirrors the source's
`Math.round(x * 100) / 100` (round half toward positive infinity at the cent).
Division is the total rational division of Lean (`x / 0 = 0`).
-/

namespace CarFinance

/-- Finance type: `"loan"` (standard) or `"pcp"` (balloon PCP). -/
inductive FinanceType
  | loan
  | pcp
deriving DecidableEq, Repr

/-- The `Inputs` record of the source (`LoanRequest` in the spec). -/
structure Inputs where
  cashPrice : ℚ
  deposit : ℚ
  fees : ℚ
  aprPct : ℚ
  termMonths : ℤ
  financeType : FinanceType
  balloon : ℚ
deriving DecidableEq, Repr

/-- One amortization-schedule row (`Row` in the source). -/
structure Row where
  period : ℕ
  payment : ℚ
  interest : ℚ
  principal : ℚ
  balance : ℚ
deriving DecidableEq, Repr

/-- The `Result` record of the source (`CalculationResult` in the spec). -/
structure Result where
  amountFinanced : ℚ
  monthlyPayment : ℚ
  totalMonthlyPaid : ℚ
  totalAmountRepayable : ℚ
  totalCostOfCredit : ℚ
  rows : List Row
deriving DecidableEq, Repr

/-- The mutable simulation state (`LoanState` in the source). -/
structure LoanState where
  financeType : FinanceType
  principal : ℚ
  balloon : ℚ
  annualRate : ℚ
  termMonthsRemaining : ℤ
  monthlyPayment : ℚ
  totalInterestOnFinance : ℚ
  currentMonth : ℤ
deriving DecidableEq, Repr

/-- Currency rounding: `Math.round(x * 100) / 100`. -/
def round2 (x : ℚ) : ℚ := (⌊x * 100 + 1 / 2⌋ : ℚ) / 100

/-- Standard annuity payment (`pmtLoan` in the source):
`if (r === 0) return P / n; const a = (1+r)^n; return P * (r*a) / (a-1)`.
Caveat of the ℚ model: at `n = 0` the source's JS arithmetic yields `NaN`
(`P/0`, or `0/0` since `a - 1 = 0`), while Lean's total division yields `0`.
No theorem below leans on that point: `calculate` validates `termMonths ≥ 1`,
and the scenario-consistency theorem excludes the one choice (settle-now)
whose output has `termMonthsRemaining = 0`. -/
def pmtLoan (P r : ℚ) (n : ℤ) : ℚ :=
  if r = 0 then P / (n : ℚ)
  else
    let a := (1 + r) ^ n
    P * (r * a) / (a - 1)

/-- Annuity payment with balloon / future value (`pmtWithBalloon` in the source):
`if (r === 0) return (P - FV) / n; const a = (1+r)^n; return ((P - FV/a) * r) / (1 - 1/a)`.
Same `n = 0` caveat as `pmtLoan`: the source yields `NaN` (`(P-FV)/0`, or
`0/0` since `1 - 1/a = 0`) where Lean's total division yields `0`; no theorem
below relies on the value at `n = 0`. -/
def pmtWithBalloon (P FV r : ℚ) (n : ℤ) : ℚ :=
  if r = 0 then (P - FV) / (n : ℚ)
  else
    let a := (1 + r) ^ n
    ((P - FV / a) * r) / (1 - 1 / a)

/-- The loop body of `buildAmortizationRows`: iterates `m` more periods starting
at period number `k` with running balance `bal`. -/
def amortGo (r PMT : ℚ) : ℚ → ℕ → ℕ → List Row
  | _, _, 0 => []
  | bal, k, m + 1 =>
    let interest := bal * r
    let principal := PMT - interest
    let bal2 := bal + interest - PMT
    { period := k, payment := round2 PMT, interest := round2 interest,
      principal := round2 principal, balance := round2 (max bal2 0) } ::
      amortGo r PMT bal2 (k + 1) m

/-- `buildAmortizationRows(P, r, n, PMT)`: first `min(12, n)` schedule rows. -/
def buildAmortizationRows (P r : ℚ) (n : ℤ) (PMT : ℚ) : List Row :=
  amortGo r PMT P 1 (min 12 n).toNat

/-- The ternary `financeType === "pcp" ? balloon : 0` used by the source. -/
def balloonIfPcp (ft : FinanceType) (b : ℚ) : ℚ :=
  if ft = .pcp then b else 0

/-- The main calculation function (`calculate` in the source).  Thrown
JavaScript errors are modelled as `Except.error` with the thrown message. -/
def calculate (i : Inputs) : Except String Result :=
  if i.cashPrice ≤ 0 then .error "Cash price must be > 0"
  else if i.deposit < 0 ∨ i.fees < 0 then .error "Deposit/fees cannot be negative"
  else if i.termMonths ≤ 0 then .error "Term must be > 0 months"
  else if i.aprPct < 0 then .error "APR cannot be negative"
  else if i.financeType = .pcp ∧ i.balloon < 0 then .error "Balloon cannot be negative"
  else if i.financeType = .pcp ∧ i.balloon ≥ i.cashPrice then
    .error "Balloon/GMFV should be less than the cash price"
  else
    let amountFinanced := max 0 (i.cashPrice - i.deposit + i.fees)
    let r := i.aprPct / 100 / 12
    let PMT :=
      match i.financeType with
      | .loan => pmtLoan amountFinanced r i.termMonths
      | .pcp => pmtWithBalloon amountFinanced i.balloon r i.termMonths
    let totalMonthlyPaid := PMT * (i.termMonths : ℚ)
    let totalAmountRepayable :=
      round2 (i.deposit + i.fees + totalMonthlyPaid + balloonIfPcp i.financeType i.balloon)
    let totalCostOfCredit := round2 (totalAmountRepayable - i.cashPrice)
    let rows := buildAmortizationRows amountFinanced r i.termMonths PMT
    .ok
      { amountFinanced := round2 amountFinanced
        monthlyPayment := round2 PMT
        totalMonthlyPaid := round2 totalMonthlyPaid
        totalAmountRepayable := totalAmountRepayable
        totalCostOfCredit := totalCostOfCredit
        rows := rows }

/-- The payment selection ternary inside `recalcLoanFromState`:
`loan.financeType === "loan" ? pmtLoan(...) : pmtWithBalloon(...)` with
`monthlyRate = loan.annualRate / 12`. -/
def derivedPmt (loan : LoanState) : ℚ :=
  match loan.financeType with
  | .loan => pmtLoan loan.principal (loan.annualRate / 12) loan.termMonthsRemaining
  | .pcp =>
      pmtWithBalloon loan.principal loan.balloon (loan.annualRate / 12) loan.termMonthsRemaining

/-- `recalcLoanFromState` from the source: recomputes the two derived fields. -/
def recalcLoanFromState (loan : LoanState) : LoanState :=
  let pmt := derivedPmt loan
  let totalRepaid :=
    pmt * (loan.termMonthsRemaining : ℚ) + balloonIfPcp loan.financeType loan.balloon
  let totalInterest := round2 (totalRepaid - loan.principal)
  { loan with monthlyPayment := round2 pmt, totalInterestOnFinance := totalInterest }

/-- `createInitialLoanState` from the source. -/
def createInitialLoanState (inputs : Inputs) (result : Result) : LoanState :=
  recalcLoanFromState
    { financeType := inputs.financeType
      principal := result.amountFinanced
      balloon := if inputs.financeType = .pcp then inputs.balloon else 0
      annualRate := inputs.aprPct / 100
      termMonthsRemaining := inputs.termMonths
      monthlyPayment := 0
      totalInterestOnFinance := 0
      currentMonth := 0 }

/-- A single choice inside a scenario (`ScenarioChoice` in the source; the
display-only `label` and `explanation` strings are omitted). -/
structure ScenarioChoice where
  id : String
  apply : LoanState → LoanState
  nextScenarioId : Option ℤ

/-- A scenario node (`ScenarioNode` in the source; display strings omitted). -/
structure ScenarioNode where
  id : ℤ
  choices : List ScenarioChoice

/-- Scenario 0, choice 1: accept higher monthly repayment (keep the same term). -/
def rateUpKeepTerm : ScenarioChoice :=
  { id := "rate-up-keep-term"
    apply := fun loan =>
      recalcLoanFromState
        { loan with annualRate := loan.annualRate + 1 / 100, currentMonth := loan.currentMonth + 12 }
    nextScenarioId := some 1 }

/-- Scenario 0, choice 2: extend the term by 12 months to reduce the monthly cost. -/
def rateUpExtendTerm : ScenarioChoice :=
  { id := "rate-up-extend-term"
    apply := fun loan =>
      recalcLoanFromState
        { loan with
            annualRate := loan.annualRate + 1 / 100
            termMonthsRemaining := loan.termMonthsRemaining + 12
            currentMonth := loan.currentMonth + 12 }
    nextScenarioId := some 1 }

/-- Scenario 1, choice 1: catch up next month and pay a 50 euro late fee. -/
def catchUpFee : ScenarioChoice :=
  { id := "catch-up-fee"
    apply := fun loan => recalcLoanFromState { loan with principal := loan.principal + 50 }
    nextScenarioId := some 2 }

/-- Scenario 1, choice 2: add the missed payment to the end of the loan. -/
def addPaymentEnd : ScenarioChoice :=
  { id := "add-payment-end"
    apply := fun loan =>
      recalcLoanFromState { loan with termMonthsRemaining := loan.termMonthsRemaining + 1 }
    nextScenarioId := some 2 }

/-- Scenario 2, choice 1: add the 1200 euro repair cost to the finance. -/
def repairAddFinance : ScenarioChoice :=
  { id := "repair-add-finance"
    apply := fun loan => recalcLoanFromState { loan with principal := loan.principal + 1200 }
    nextScenarioId := some 3 }

/-- Scenario 2, choice 2: pay the repair using savings (loan unchanged). -/
def repairPayCash : ScenarioChoice :=
  { id := "repair-pay-cash"
    apply := fun loan => loan
    nextScenarioId := some 3 }

/-- Scenario 3, choice 1: extend the finance term by 12 months. -/
def extendTermRunningCosts : ScenarioChoice :=
  { id := "extend-term-running-costs"
    apply := fun loan =>
      recalcLoanFromState { loan with termMonthsRemaining := loan.termMonthsRemaining + 12 }
    nextScenarioId := some 4 }

/-- Scenario 3, choice 2: keep the same loan term (loan unchanged). -/
def keepTermRunningCosts : ScenarioChoice :=
  { id := "keep-term-running-costs"
    apply := fun loan => loan
    nextScenarioId := some 4 }

/-- Scenario 4, choice 1: pay 2000 euro off the finance balance. -/
def bonusRepay2000 : ScenarioChoice :=
  { id := "bonus-repay-2000"
    apply := fun loan =>
      recalcLoanFromState { loan with principal := max (loan.principal - 2000) 0 }
    nextScenarioId := some 5 }

/-- Scenario 4, choice 2: keep the bonus in savings (loan unchanged). -/
def bonusKeepCash : ScenarioChoice :=
  { id := "bonus-keep-cash"
    apply := fun loan => loan
    nextScenarioId := some 5 }

/-- Scenario 5, choice 1: settle the loan now.  Note the source assigns the
derived fields directly and does not call `recalcLoanFromState`. -/
def settleNow : ScenarioChoice :=
  { id := "settle-now"
    apply := fun loan =>
      { loan with
          principal := 0
          balloon := 0
          termMonthsRemaining := 0
          monthlyPayment := 0
          totalInterestOnFinance := 0 }
    nextScenarioId := some 6 }

/-- Scenario 5, choice 2: continue with the current loan (loan unchanged). -/
def continueLoan : ScenarioChoice :=
  { id := "continue-loan"
    apply := fun loan => loan
    nextScenarioId := some 6 }

/-- Scenario 6, choice 1: reduce the term by 6 months (floored at 1 month). -/
def reduceTerm : ScenarioChoice :=
  { id := "reduce-term"
    apply := fun loan =>
      recalcLoanFromState
        { loan with termMonthsRemaining := max (loan.termMonthsRemaining - 6) 1 }
    nextScenarioId := none }

/-- Scenario 6, choice 2: keep the same repayment schedule (loan unchanged). -/
def keepTerm : ScenarioChoice :=
  { id := "keep-term"
    apply := fun loan => loan
    nextScenarioId := none }

/-- The fixed scenario graph (`loanScenarios` in the source). -/
def loanScenarios : List ScenarioNode :=
  [ { id := 0, choices := [rateUpKeepTerm, rateUpExtendTerm] }
  , { id := 1, choices := [catchUpFee, addPaymentEnd] }
  , { id := 2, choices := [repairAddFinance, repairPayCash] }
  , { id := 3, choices := [extendTermRunningCosts, keepTermRunningCosts] }
  , { id := 4, choices := [bonusRepay2000, bonusKeepCash] }
  , { id := 5, choices := [settleNow, continueLoan] }
  , { id := 6, choices := [reduceTerm, keepTerm] } ]

/-- A `LoanState` whose two derived fields agree with what `recalcLoanFromState`
recomputes from its other fields. -/
def consistentState (s : LoanState) : Prop :=
  s.monthlyPayment = (recalcLoanFromState s).monthlyPayment ∧
    s.totalInterestOnFinance = (recalcLoanFromState s).totalInterestOnFinance

/-! ## Basic facts about `round2` and `recalcLoanFromState` -/

lemma round2_mono {x y : ℚ} (h : x ≤ y) : round2 x ≤ round2 y := by
  unfold round2
  have hf : ⌊x * 100 + 1 / 2⌋ ≤ ⌊y * 100 + 1 / 2⌋ := Int.floor_le_floor (by linarith)
  have : ((⌊x * 100 + 1 / 2⌋ : ℤ) : ℚ) ≤ ((⌊y * 100 + 1 / 2⌋ : ℤ) : ℚ) := by exact_mod_cast hf
  linarith

lemma round2_nonneg {x : ℚ} (h : 0 ≤ x) : 0 ≤ round2 x := by
  unfold round2
  have hf : (0 : ℤ) ≤ ⌊x * 100 + 1 / 2⌋ := Int.le_floor.mpr (by push_cast; linarith)
  have : (0 : ℚ) ≤ ((⌊x * 100 + 1 / 2⌋ : ℤ) : ℚ) := by exact_mod_cast hf
  linarith

lemma round2_zero : round2 0 = 0 := by norm_num [round2]

/-- `recalcLoanFromState` only rewrites the two derived fields. -/
lemma recalc_fields (s : LoanState) :
    (recalcLoanFromState s).financeType = s.financeType ∧
      (recalcLoanFromState s).principal = s.principal ∧
      (recalcLoanFromState s).balloon = s.balloon ∧
      (recalcLoanFromState s).annualRate = s.annualRate ∧
      (recalcLoanFromState s).termMonthsRemaining = s.termMonthsRemaining := by
  simp [recalcLoanFromState]

lemma recalc_monthlyPayment (s : LoanState) :
    (recalcLoanFromState s).monthlyPayment = round2 (derivedPmt s) := rfl

lemma recalc_totalInterest (s : LoanState) :
    (recalcLoanFromState s).totalInterestOnFinance =
      round2 (derivedPmt s * (s.termMonthsRemaining : ℚ) +
        balloonIfPcp s.financeType s.balloon - s.principal) := rfl

/-- `derivedPmt` only reads the five non-derived fields, so recalculating does
not change it. -/
lemma derivedPmt_recalc (s : LoanState) : derivedPmt (recalcLoanFromState s) = derivedPmt s := by
  simp [derivedPmt, recalcLoanFromState]

/-- The output of `recalcLoanFromState` is always a consistent state. -/
lemma consistent_recalc (s : LoanState) : consistentState (recalcLoanFromState s) := by
  constructor
  · rfl
  · rfl

/-! ## Claim C1 -/

/-- C1: `calculate` fails with a validation error if and only if one of the
listed conditions holds (`cashPrice ≤ 0`, `deposit < 0`, `fees < 0`,
`termMonths ≤ 0`, `aprPercent < 0`, or PCP with `balloonAmount < 0` or
`balloonAmount ≥ cashPrice`); on every other request it returns a result. -/
theorem calculate_validation_iff (i : Inputs) :
    (∃ res, calculate i = .ok res) ↔
      ¬(i.cashPrice ≤ 0 ∨ i.deposit < 0 ∨ i.fees < 0 ∨ i.termMonths ≤ 0 ∨ i.aprPct < 0 ∨
        (i.financeType = .pcp ∧ (i.balloon < 0 ∨ i.balloon ≥ i.cashPrice))) := by
  unfold calculate
  split_ifs with h1 h2 h3 h4 h5 h6 <;>
    simp only [Except.ok.injEq, exists_eq', true_iff, false_iff, reduceCtorEq,
      exists_false, not_not] <;>
    tauto

/-! ## Claim C9 -/

/-- C9: `recalcLoanFromState` is idempotent — recalculating an
already-recalculated state yields the same `monthlyPayment`. -/
theorem recalc_idempotent_monthlyPayment (s : LoanState) :
    (recalcLoanFromState (recalcLoanFromState s)).monthlyPayment =
      (recalcLoanFromState s).monthlyPayment := by
  rw [recalc_monthlyPayment, recalc_monthlyPayment, derivedPmt_recalc]

/-! ## Claim C3 -/

lemma amortGo_length (r PMT : ℚ) (m : ℕ) :
    ∀ (bal : ℚ) (k : ℕ), (amortGo r PMT bal k m).length = m := by
  induction m with
  | zero => intro bal k; rfl
  | succ m ih => intro bal k; simp [amortGo, ih]

lemma amortGo_get_spec (r PMT : ℚ) (m : ℕ) :
    ∀ (bal : ℚ) (k j : ℕ) (hj : j < (amortGo r PMT bal k m).length),
      ((amortGo r PMT bal k m).get ⟨j, hj⟩).period = k + j ∧
        0 ≤ ((amortGo r PMT bal k m).get ⟨j, hj⟩).balance := by
  induction m with
  | zero =>
    intro bal k j hj
    rw [amortGo_length] at hj
    exact absurd hj (Nat.not_lt_zero j)
  | succ m ih =>
    intro bal k j hj
    cases j with
    | zero =>
      refine ⟨rfl, ?_⟩
      exact round2_nonneg (le_max_right _ _)
    | succ j =>
      have hj' : j < (amortGo r PMT (bal + bal * r - PMT) (k + 1) m).length := by
        rw [amortGo_length]
        rw [amortGo_length] at hj
        omega
      have h2 := ih (bal + bal * r - PMT) (k + 1) j hj'
      constructor
      · have h3 : ((amortGo r PMT bal k (m + 1)).get ⟨j + 1, hj⟩).period = k + 1 + j := h2.1
        omega
      · exact h2.2

/-- C3: for every request that `calculate` accepts, the schedule has exactly
`min(12, termMonths)` rows, period numbers are 1-based and ascending
(`period = j + 1` at 0-based index `j`), and every reported `balanceAfter`
is nonnegative. -/
theorem schedule_rows_spec (i : Inputs) (res : Result) (h : calculate i = .ok res) :
    res.rows.length = (min 12 i.termMonths).toNat ∧
      ∀ j (hj : j < res.rows.length),
        (res.rows.get ⟨j, hj⟩).period = j + 1 ∧ 0 ≤ (res.rows.get ⟨j, hj⟩).balance := by
  unfold calculate at h
  split_ifs at h
  simp only [Except.ok.injEq] at h
  subst h
  simp only [buildAmortizationRows]
  refine ⟨amortGo_length _ _ _ _ _, ?_⟩
  intro j hj
  have := amortGo_get_spec _ _ _ _ _ _ hj
  refine ⟨?_, this.2⟩
  rw [this.1]
  omega

def c3Inputs : Inputs := ⟨100, 0, 0, 0, 2, .loan, 0⟩

def c3Res : Result := ⟨100, 50, 100, 100, 0, [⟨1, 50, 0, 50, 50⟩, ⟨2, 50, 0, 50, 0⟩]⟩

lemma c3_eval : calculate c3Inputs = .ok c3Res := by
  norm_num [calculate, c3Inputs, c3Res, pmtLoan, buildAmortizationRows, amortGo,
    balloonIfPcp, round2]

/-- C3 witness: the concrete request `⟨100, 0, 0, 0, 2, loan, 0⟩` is accepted
and its schedule satisfies the row specification. -/
theorem schedule_rows_spec_witness :
    calculate c3Inputs = .ok c3Res ∧
      (c3Res.rows.length = (min 12 c3Inputs.termMonths).toNat ∧
        ∀ j (hj : j < c3Res.rows.length),
          (c3Res.rows.get ⟨j, hj⟩).period = j + 1 ∧ 0 ≤ (c3Res.rows.get ⟨j, hj⟩).balance) :=
  ⟨c3_eval, schedule_rows_spec c3Inputs c3Res c3_eval⟩

/-! ## Claim C8 -/

/-- C8: for a `Standard` (loan) request with `aprPercent = 0` that `calculate`
accepts, the monthly payment is `round2` of `amountFinanced / termMonths`: the
zero-rate branch of `pmtLoan` divides evenly instead of using the annuity
formula. -/
theorem zero_rate_payment (i : Inputs) (res : Result)
    (hft : i.financeType = .loan) (h0 : i.aprPct = 0) (h : calculate i = .ok res) :
    res.monthlyPayment = round2 (max 0 (i.cashPrice - i.deposit + i.fees) / (i.termMonths : ℚ)) := by
  unfold calculate at h
  split_ifs at h
  simp only [Except.ok.injEq] at h
  subst h
  simp only [hft, h0, pmtLoan]
  norm_num

def c8Inputs : Inputs := ⟨1000, 0, 0, 0, 3, .loan, 0⟩

def c8Res : Result :=
  ⟨1000, 33333/100, 1000, 1000, 0,
    [⟨1, 33333/100, 0, 33333/100, 66667/100⟩,
     ⟨2, 33333/100, 0, 33333/100, 33333/100⟩,
     ⟨3, 33333/100, 0, 33333/100, 0⟩]⟩

lemma c8_eval : calculate c8Inputs = .ok c8Res := by
  norm_num [calculate, c8Inputs, c8Res, pmtLoan, buildAmortizationRows, amortGo,
    balloonIfPcp, round2]

/-- C8 witness: the concrete zero-rate loan request `⟨1000, 0, 0, 0, 3, loan, 0⟩`. -/
theorem zero_rate_payment_witness :
    c8Inputs.financeType = .loan ∧ c8Inputs.aprPct = 0 ∧ calculate c8Inputs = .ok c8Res ∧
      c8Res.monthlyPayment =
        round2 (max 0 (c8Inputs.cashPrice - c8Inputs.deposit + c8Inputs.fees) /
          (c8Inputs.termMonths : ℚ)) :=
  ⟨rfl, rfl, c8_eval, zero_rate_payment c8Inputs c8Res rfl rfl c8_eval⟩

/-! ## Claim C10 -/

def c10Inputs : Inputs := ⟨10000, 9000, 0, 0, 1, .pcp, 5000⟩

def c10Res : Result := ⟨1000, -4000, -4000, 10000, 0, [⟨1, -4000, 0, -4000, 5000⟩]⟩

lemma c10_eval : calculate c10Inputs = .ok c10Res := by
  norm_num [calculate, c10Inputs, c10Res, pmtWithBalloon, buildAmortizationRows, amortGo,
    balloonIfPcp, round2]

/-- C10: a PCP request can pass validation (`balloonAmount < cashPrice`) yet
yield a strictly negative monthly payment, because validation never compares
the balloon against `amountFinanced`: with `aprPercent = 0` and a large
deposit, `pmtWithBalloon` returns `(P − FV)/n < 0`. -/
theorem pcp_negative_payment_possible :
    ∃ res, calculate c10Inputs = .ok res ∧ res.monthlyPayment < 0 :=
  ⟨c10Res, c10_eval, by norm_num [c10Res]⟩

/-! ## Claim C2 -/

def c2Inputs : Inputs := ⟨25000, 5000, 0, 69/10, 60, .loan, 0⟩

/-- The numeric fields `calculate` produces on the spec's example input
(the schedule rows are not forced). -/
lemma c2_eval :
    (calculate c2Inputs).toOption.map
        (fun res => (res.amountFinanced, res.monthlyPayment, res.totalMonthlyPaid,
          res.totalAmountRepayable, res.totalCostOfCredit)) =
      some (20000, 9877/25, 1185243/50, 1435243/50, 185243/50) := by
  norm_num [calculate, c2Inputs, pmtLoan, balloonIfPcp, round2, Except.toOption]

/-- C2 counterexample: on the spec's example input `calculate` succeeds with
`monthlyPayment = 395.08` (not `≈ 394.69`) and `totalCostOfCredit = 3704.86`
— positive, not `≈ −1318.60`: the deposit is part of `totalAmountRepayable`,
so the cost of credit is not negative here. -/
theorem calculate_example_counterexample :
    ∃ res, calculate c2Inputs = .ok res ∧ res.monthlyPayment = 9877/25 ∧
      res.totalCostOfCredit = 185243/50 ∧ ¬(res.totalCostOfCredit < 0) := by
  have h := c2_eval
  cases hcal : calculate c2Inputs with
  | error e => rw [hcal] at h; simp [Except.toOption] at h
  | ok res =>
    rw [hcal] at h
    simp only [Except.toOption, Option.map] at h
    rw [Option.some_inj, Prod.mk.injEq, Prod.mk.injEq, Prod.mk.injEq, Prod.mk.injEq] at h
    refine ⟨res, rfl, h.2.1, h.2.2.2.2, ?_⟩
    rw [h.2.2.2.2]
    norm_num

/-- C2 (amended): on input `cashPrice = 25000`, `deposit = 5000`, `fees = 0`,
`aprPercent = 6.9`, `termMonths = 60`, `Standard`, `calculate` succeeds with
`amountFinanced = 20000`, `monthlyPayment = 395.08`,
`totalMonthlyPaid = 23704.86`, `totalAmountRepayable = 28704.86` and
`totalCostOfCredit = 3704.86` (positive). -/
theorem calculate_example_values :
    ∃ res, calculate c2Inputs = .ok res ∧ res.amountFinanced = 20000 ∧
      res.monthlyPayment = 9877/25 ∧ res.totalMonthlyPaid = 1185243/50 ∧
      res.totalAmountRepayable = 1435243/50 ∧ res.totalCostOfCredit = 185243/50 ∧
      0 < res.totalCostOfCredit := by
  have h := c2_eval
  cases hcal : calculate c2Inputs with
  | error e => rw [hcal] at h; simp [Except.toOption] at h
  | ok res =>
    rw [hcal] at h
    simp only [Except.toOption, Option.map] at h
    rw [Option.some_inj, Prod.mk.injEq, Prod.mk.injEq, Prod.mk.injEq, Prod.mk.injEq] at h
    refine ⟨res, rfl, h.1, h.2.1, h.2.2.1, h.2.2.2.1, h.2.2.2.2, ?_⟩
    rw [h.2.2.2.2]
    norm_num

/-! ## Claim C5 -/

def c5State : LoanState := ⟨.loan, 100, 0, 0, 3, 0, 0, 0⟩

/-- C5 counterexample: on the state `⟨loan, principal 100, rate 0, 3 months⟩`,
`recalcLoanFromState` reports `totalInterestRemaining = 0`, while the claim's
formula — computed from the *rounded* `monthlyPayment` field `33.33` — gives
`round2(33.33 × 3 − 100) = −0.01`. -/
theorem recalc_interest_field_counterexample :
    (recalcLoanFromState c5State).totalInterestOnFinance ≠
      round2 ((recalcLoanFromState c5State).monthlyPayment * (c5State.termMonthsRemaining : ℚ) +
        balloonIfPcp c5State.financeType c5State.balloon - c5State.principal) := by
  norm_num [recalcLoanFromState, derivedPmt, pmtLoan, balloonIfPcp, round2, c5State]

/-- C5 (amended): `recalcLoanFromState` sets `totalInterestRemaining` to
`round2(pmt × termMonthsRemaining + balloonIfPCP − principal)` where `pmt` is
the *unrounded* derived payment (`derivedPmt`), not the rounded
`monthlyPayment` field. -/
theorem recalc_interest_unrounded_formula (s : LoanState) :
    (recalcLoanFromState s).totalInterestOnFinance =
      round2 (derivedPmt s * (s.termMonthsRemaining : ℚ) +
        balloonIfPcp s.financeType s.balloon - s.principal) := rfl

/-! ## Claim C7 -/

/-- A currency amount: an exact whole number of cents, as the spec's
`currency` type for request fields. -/
def isCents (x : ℚ) : Prop := ∃ m : ℤ, x = (m : ℚ) / 100

lemma isCents_add {x y : ℚ} (hx : isCents x) (hy : isCents y) : isCents (x + y) := by
  obtain ⟨m, rfl⟩ := hx
  obtain ⟨k, rfl⟩ := hy
  exact ⟨m + k, by push_cast; ring⟩

lemma isCents_zero : isCents 0 := ⟨0, by norm_num⟩

/-- Adding a whole number of cents commutes with `round2`. -/
lemma round2_add_cents {s : ℚ} (x : ℚ) (hs : isCents s) : round2 (s + x) = s + round2 x := by
  obtain ⟨m, rfl⟩ := hs
  unfold round2
  have h1 : ((m : ℚ) / 100 + x) * 100 + 1 / 2 = x * 100 + 1 / 2 + (m : ℚ) := by ring
  rw [h1, Int.floor_add_int]
  push_cast
  ring

/-- C7: for every request that `calculate` accepts whose `deposit`, `fees` and
(for PCP) `balloon` are whole cents, `totalAmountRepayable` equals
`deposit + fees + totalMonthlyPaid` plus the balloon exactly once for PCP and
not at all for Standard (`balloonIfPcp`). -/
theorem totalAmountRepayable_formula (i : Inputs) (res : Result)
    (h : calculate i = .ok res) (hd : isCents i.deposit) (hf : isCents i.fees)
    (hb : i.financeType = .pcp → isCents i.balloon) :
    res.totalAmountRepayable =
      i.deposit + i.fees + res.totalMonthlyPaid + balloonIfPcp i.financeType i.balloon := by
  unfold calculate at h
  split_ifs at h
  simp only [Except.ok.injEq] at h
  subst h
  have hbif : isCents (balloonIfPcp i.financeType i.balloon) := by
    unfold balloonIfPcp
    split_ifs with hft
    · exact hb hft
    · exact isCents_zero
  have hs : isCents (i.deposit + i.fees + balloonIfPcp i.financeType i.balloon) :=
    isCents_add (isCents_add hd hf) hbif
  show round2 _ = _
  have h2 :
      i.deposit + i.fees +
          (match i.financeType with
            | FinanceType.loan =>
                pmtLoan (max 0 (i.cashPrice - i.deposit + i.fees)) (i.aprPct / 100 / 12)
                  i.termMonths
            | FinanceType.pcp =>
                pmtWithBalloon (max 0 (i.cashPrice - i.deposit + i.fees)) i.balloon
                  (i.aprPct / 100 / 12) i.termMonths) *
            (i.termMonths : ℚ) +
          balloonIfPcp i.financeType i.balloon =
        i.deposit + i.fees + balloonIfPcp i.financeType i.balloon +
          (match i.financeType with
            | FinanceType.loan =>
                pmtLoan (max 0 (i.cashPrice - i.deposit + i.fees)) (i.aprPct / 100 / 12)
                  i.termMonths
            | FinanceType.pcp =>
                pmtWithBalloon (max 0 (i.cashPrice - i.deposit + i.fees)) i.balloon
                  (i.aprPct / 100 / 12) i.termMonths) *
            (i.termMonths : ℚ) := by ring
  rw [h2, round2_add_cents _ hs]
  ring

def c7Inputs : Inputs := ⟨20000, 1000, 100, 0, 1, .pcp, 5000⟩

def c7Res : Result := ⟨19100, 14100, 14100, 20200, 200, [⟨1, 14100, 0, 14100, 5000⟩]⟩

lemma c7_eval : calculate c7Inputs = .ok c7Res := by
  norm_num [calculate, c7Inputs, c7Res, pmtWithBalloon, buildAmortizationRows, amortGo,
    balloonIfPcp, round2]

/-- C7 witness: the concrete PCP request `⟨20000, 1000, 100, 0, 1, pcp, 5000⟩`. -/
theorem totalAmountRepayable_formula_witness :
    calculate c7Inputs = .ok c7Res ∧ isCents c7Inputs.deposit ∧ isCents c7Inputs.fees ∧
      (c7Inputs.financeType = .pcp → isCents c7Inputs.balloon) ∧
      c7Res.totalAmountRepayable =
        c7Inputs.deposit + c7Inputs.fees + c7Res.totalMonthlyPaid +
          balloonIfPcp c7Inputs.financeType c7Inputs.balloon :=
  ⟨c7_eval, ⟨100000, by norm_num [c7Inputs]⟩, ⟨10000, by norm_num [c7Inputs]⟩,
    fun _ => ⟨500000, by norm_num [c7Inputs]⟩,
    totalAmountRepayable_formula c7Inputs c7Res c7_eval ⟨100000, by norm_num [c7Inputs]⟩
      ⟨10000, by norm_num [c7Inputs]⟩ fun _ => ⟨500000, by norm_num [c7Inputs]⟩⟩

/-! ## Claim C4 -/

/-- C4 (amended): every scenario choice other than settle-now, applied to a
*consistent* state, yields a consistent state — the transitions that mutate
loan fields call `recalcLoanFromState`, and the identity transitions preserve
consistency.  Settle-now is genuinely excluded: it assigns the derived fields
directly (zeros) without recalculating, and on its output
`termMonthsRemaining = 0`, where the source's recomputation is `0/0` (`NaN`
in JS), so the settled state is not consistent with the payment formulas. -/
theorem scenario_choices_preserve_consistency :
    ∀ node ∈ loanScenarios, ∀ ch ∈ node.choices, ch.id ≠ settleNow.id →
      ∀ s : LoanState, consistentState s → consistentState (ch.apply s) := by
  intro node hnode ch hch hid s hs
  fin_cases hnode <;> fin_cases hch <;>
    first
      | exact hs
      | exact consistent_recalc _
      | exact absurd rfl hid

def c4State : LoanState := ⟨.loan, 100, 0, 0, 10, 999, 0, 0⟩

/-- C4 counterexample: the identity choice `repair-pay-cash` (scenario 2),
applied to a `LoanState` whose stored `monthlyPayment` (999) disagrees with
the recomputed one (10), returns that state unchanged, so its output is out of
sync with `recalcLoanFromState`. -/
theorem scenario_consistency_counterexample :
    ∃ node ∈ loanScenarios, ∃ ch ∈ node.choices, ∃ s : LoanState,
      (ch.apply s).monthlyPayment ≠ (recalcLoanFromState (ch.apply s)).monthlyPayment := by
  refine ⟨{ id := 2, choices := [repairAddFinance, repairPayCash] }, by simp [loanScenarios],
    repairPayCash, by simp, c4State, ?_⟩
  norm_num [repairPayCash, c4State, recalcLoanFromState, derivedPmt, pmtLoan,
    balloonIfPcp, round2]

def c4GoodState : LoanState := ⟨.loan, 1200, 0, 0, 12, 100, 0, 0⟩

lemma c4GoodState_consistent : consistentState c4GoodState := by
  constructor
  · norm_num [c4GoodState, recalcLoanFromState, derivedPmt, pmtLoan, round2]
  · norm_num [c4GoodState, recalcLoanFromState, derivedPmt, pmtLoan, balloonIfPcp, round2]

/-- C4 witness: the first scenario's first choice applied to a concrete
consistent state stays consistent. -/
theorem scenario_choices_preserve_consistency_witness :
    ({ id := 0, choices := [rateUpKeepTerm, rateUpExtendTerm] } : ScenarioNode) ∈ loanScenarios ∧
      rateUpKeepTerm ∈
        ({ id := 0, choices := [rateUpKeepTerm, rateUpExtendTerm] } : ScenarioNode).choices ∧
      rateUpKeepTerm.id ≠ settleNow.id ∧
      consistentState c4GoodState ∧ consistentState (rateUpKeepTerm.apply c4GoodState) :=
  ⟨by simp [loanScenarios], by simp, by simp [rateUpKeepTerm, settleNow], c4GoodState_consistent,
    scenario_choices_preserve_consistency
      { id := 0, choices := [rateUpKeepTerm, rateUpExtendTerm] } (by simp [loanScenarios])
      rateUpKeepTerm (by simp) (by simp [rateUpKeepTerm, settleNow]) c4GoodState
      c4GoodState_consistent⟩

/-! ## Claim C6: annuity-factor machinery

For a monthly rate `r ≥ 0` and `n ≥ 1` periods, both payment formulas of the
source equal a quotient by the annuity factor `∑_{k=1}^{n} (1+r)^{-k}`, which
gives clean monotonicity in the rate and the term. -/

def annuityFactor (r : ℚ) (n : ℕ) : ℚ := ∑ k ∈ Finset.range n, (1 / (1 + r)) ^ (k + 1)

lemma one_add_rate_pos {r : ℚ} (hr : 0 ≤ r) : 0 < 1 + r := by linarith

lemma discount_pos {r : ℚ} (hr : 0 ≤ r) : 0 < 1 / (1 + r) :=
  one_div_pos.mpr (one_add_rate_pos hr)

lemma discount_le_one {r : ℚ} (hr : 0 ≤ r) : 1 / (1 + r) ≤ 1 := by
  rw [div_le_one (one_add_rate_pos hr)]
  linarith

lemma annuityFactor_pos {r : ℚ} (hr : 0 ≤ r) {n : ℕ} (hn : 1 ≤ n) : 0 < annuityFactor r n :=
  Finset.sum_pos (fun k _ => pow_pos (discount_pos hr) _)
    (Finset.nonempty_range_iff.mpr (by omega))

lemma annuityFactor_le_of_term {r : ℚ} (hr : 0 ≤ r) {n m : ℕ} (h : n ≤ m) :
    annuityFactor r n ≤ annuityFactor r m :=
  Finset.sum_le_sum_of_subset_of_nonneg (Finset.range_subset.mpr h)
    (fun k _ _ => le_of_lt (pow_pos (discount_pos hr) _))

lemma annuityFactor_anti_rate {r r' : ℚ} (hr : 0 ≤ r) (hrr : r ≤ r') (n : ℕ) :
    annuityFactor r' n ≤ annuityFactor r n := by
  refine Finset.sum_le_sum fun k _ => ?_
  refine pow_le_pow_left (le_of_lt (discount_pos (le_trans hr hrr))) ?_ _
  exact one_div_le_one_div_of_le (one_add_rate_pos hr) (by linarith)

lemma annuityFactor_ge {r : ℚ} (hr : 0 ≤ r) (n : ℕ) :
    (n : ℚ) * (1 / (1 + r)) ^ n ≤ annuityFactor r n := by
  have h : ∀ k ∈ Finset.range n, (1 / (1 + r)) ^ n ≤ (1 / (1 + r)) ^ (k + 1) := fun k hk => by
    have hk' := Finset.mem_range.mp hk
    exact pow_le_pow_of_le_one (le_of_lt (discount_pos hr)) (discount_le_one hr) (by omega)
  calc (n : ℚ) * (1 / (1 + r)) ^ n
      = ∑ _k ∈ Finset.range n, (1 / (1 + r)) ^ n := by
        rw [Finset.sum_const, Finset.card_range, nsmul_eq_mul]
    _ ≤ annuityFactor r n := Finset.sum_le_sum h

/-- The average of the first `n` discount factors dominates the average of the
first `n + d`: total payments do not drop when the term is extended. -/
lemma annuityFactor_avg {r : ℚ} (hr : 0 ≤ r) {n : ℕ} (hn : 1 ≤ n) (d : ℕ) :
    (n : ℚ) * annuityFactor r (n + d) ≤ ((n : ℚ) + (d : ℚ)) * annuityFactor r n := by
  induction d with
  | zero => simp
  | succ d ih =>
    have hstep : annuityFactor r (n + (d + 1)) =
        annuityFactor r (n + d) + (1 / (1 + r)) ^ (n + d + 1) := by
      rw [show n + (d + 1) = (n + d) + 1 by omega, annuityFactor, Finset.sum_range_succ]
      rfl
    have hb1 : (n : ℚ) * (1 / (1 + r)) ^ (n + d + 1) ≤ annuityFactor r n := by
      have hpow : (1 / (1 + r)) ^ (n + d + 1) ≤ (1 / (1 + r)) ^ n :=
        pow_le_pow_of_le_one (le_of_lt (discount_pos hr)) (discount_le_one hr) (by omega)
      calc (n : ℚ) * (1 / (1 + r)) ^ (n + d + 1)
          ≤ (n : ℚ) * (1 / (1 + r)) ^ n :=
            mul_le_mul_of_nonneg_left hpow (Nat.cast_nonneg n)
        _ ≤ annuityFactor r n := annuityFactor_ge hr n
    rw [hstep]
    push_cast
    push_cast at ih
    nlinarith [ih, hb1]

lemma af_mul_rate {r : ℚ} (hr : 0 < r) (n : ℕ) :
    r * annuityFactor r n = 1 - (1 / (1 + r)) ^ n := by
  have h1 : (1 : ℚ) + r ≠ 0 := by linarith
  induction n with
  | zero => simp [annuityFactor]
  | succ n ih =>
    rw [annuityFactor, Finset.sum_range_succ, ← annuityFactor, mul_add, ih]
    have hx : (1 + r) * (1 / (1 + r)) = 1 := by field_simp
    linear_combination (1 / (1 + r)) ^ n * hx

lemma annuityFactor_zero_rate (n : ℕ) : annuityFactor 0 n = n := by
  simp [annuityFactor]

lemma pmtLoan_eq_af (P : ℚ) {r : ℚ} (hr : 0 ≤ r) {n : ℤ} (hn : 0 < n) :
    pmtLoan P r n = P / annuityFactor r n.toNat := by
  have hnN : ((n.toNat : ℕ) : ℤ) = n := Int.toNat_of_nonneg hn.le
  have hN1 : 1 ≤ n.toNat := by omega
  rcases hr.eq_or_lt with rfl | h0
  · rw [pmtLoan, if_pos rfl, annuityFactor_zero_rate]
    congr 1
    exact_mod_cast hnN.symm
  · simp only [pmtLoan, if_neg (ne_of_gt h0)]
    have hzp : (1 + r) ^ n = (1 + r) ^ (n.toNat : ℕ) := by
      rw [← zpow_natCast ((1 : ℚ) + r) n.toNat, hnN]
    rw [hzp]
    have ha0 : (0 : ℚ) < (1 + r) ^ (n.toNat : ℕ) := pow_pos (by linarith) _
    have ha1 : 1 < (1 + r) ^ (n.toNat : ℕ) := one_lt_pow (by linarith) (by omega)
    have haf : 0 < annuityFactor r n.toNat := annuityFactor_pos hr hN1
    have hinv : (1 / (1 + r)) ^ (n.toNat : ℕ) = ((1 + r) ^ (n.toNat : ℕ))⁻¹ := by
      rw [one_div, inv_pow]
    have hkey : r * annuityFactor r n.toNat = 1 - ((1 + r) ^ (n.toNat : ℕ))⁻¹ := by
      rw [af_mul_rate h0, hinv]
    rw [div_eq_div_iff (sub_ne_zero.mpr (ne_of_gt ha1)) (ne_of_gt haf)]
    have h3 : (1 + r) ^ (n.toNat : ℕ) * (1 - ((1 + r) ^ (n.toNat : ℕ))⁻¹) =
        (1 + r) ^ (n.toNat : ℕ) - 1 := by field_simp
    calc P * (r * (1 + r) ^ (n.toNat : ℕ)) * annuityFactor r n.toNat
        = P * ((1 + r) ^ (n.toNat : ℕ) * (r * annuityFactor r n.toNat)) := by ring
      _ = P * ((1 + r) ^ (n.toNat : ℕ) * (1 - ((1 + r) ^ (n.toNat : ℕ))⁻¹)) := by rw [hkey]
      _ = P * ((1 + r) ^ (n.toNat : ℕ) - 1) := by rw [h3]

lemma pmtWithBalloon_eq_af (P FV : ℚ) {r : ℚ} (hr : 0 ≤ r) {n : ℤ} (hn : 0 < n) :
    pmtWithBalloon P FV r n =
      (P - FV * (1 / (1 + r)) ^ n.toNat) / annuityFactor r n.toNat := by
  have hnN : ((n.toNat : ℕ) : ℤ) = n := Int.toNat_of_nonneg hn.le
  have hN1 : 1 ≤ n.toNat := by omega
  rcases hr.eq_or_lt with rfl | h0
  · rw [pmtWithBalloon, if_pos rfl, annuityFactor_zero_rate]
    rw [show (1 : ℚ) + 0 = 1 by norm_num, div_one, one_pow, mul_one]
    congr 1
    exact_mod_cast hnN.symm
  · simp only [pmtWithBalloon, if_neg (ne_of_gt h0)]
    have hzp : (1 + r) ^ n = (1 + r) ^ (n.toNat : ℕ) := by
      rw [← zpow_natCast ((1 : ℚ) + r) n.toNat, hnN]
    rw [hzp]
    have ha0 : (0 : ℚ) < (1 + r) ^ (n.toNat : ℕ) := pow_pos (by linarith) _
    have haf : 0 < annuityFactor r n.toNat := annuityFactor_pos hr hN1
    have hinv : (1 / (1 + r)) ^ (n.toNat : ℕ) = ((1 + r) ^ (n.toNat : ℕ))⁻¹ := by
      rw [one_div, inv_pow]
    have hkey : r * annuityFactor r n.toNat = 1 - ((1 + r) ^ (n.toNat : ℕ))⁻¹ := by
      rw [af_mul_rate h0, hinv]
    have hden : 1 - 1 / (1 + r) ^ (n.toNat : ℕ) = r * annuityFactor r n.toNat := by
      rw [hkey, one_div]
    have hfv : FV / (1 + r) ^ (n.toNat : ℕ) = FV * (1 / (1 + r)) ^ (n.toNat : ℕ) := by
      rw [hinv, div_eq_mul_inv]
    rw [hden, hfv, div_eq_div_iff (ne_of_gt (mul_pos h0 haf)) (ne_of_gt haf)]
    ring

/-- Decomposition of the balloon payment: fixed interest on the balloon plus
an ordinary annuity payment on `P − FV`. -/
lemma pmt_decomp {P FV r : ℚ} (hr : 0 ≤ r) {N : ℕ} (hN : 1 ≤ N) :
    (P - FV * (1 / (1 + r)) ^ N) / annuityFactor r N =
      (P - FV) / annuityFactor r N + r * FV := by
  rcases hr.eq_or_lt with rfl | h0
  · simp
  · have haf : (0 : ℚ) < annuityFactor r N := annuityFactor_pos hr hN
    have hkey := af_mul_rate h0 N
    have hnum : P - FV * (1 / (1 + r)) ^ N = (P - FV) + (r * FV) * annuityFactor r N := by
      linear_combination (-FV) * hkey
    rw [hnum, add_div, mul_div_cancel_right₀ _ (ne_of_gt haf)]

/-- Both payment formulas, uniformly: for nonnegative rate and positive term,
the derived payment is `(principal − balloon·discountⁿ) / annuityFactor`. -/
lemma derivedPmt_eq_af (t : LoanState) (hr : 0 ≤ t.annualRate) (hn : 0 < t.termMonthsRemaining) :
    derivedPmt t =
      (t.principal - balloonIfPcp t.financeType t.balloon *
          (1 / (1 + t.annualRate / 12)) ^ t.termMonthsRemaining.toNat) /
        annuityFactor (t.annualRate / 12) t.termMonthsRemaining.toNat := by
  have hr12 : 0 ≤ t.annualRate / 12 := by positivity
  cases hft : t.financeType
  case loan =>
    simp only [derivedPmt, hft, balloonIfPcp, if_neg (by simp : ¬FinanceType.loan = .pcp),
      zero_mul, sub_zero]
    exact pmtLoan_eq_af t.principal hr12 hn
  case pcp =>
    simp only [derivedPmt, hft, balloonIfPcp, if_pos rfl]
    exact pmtWithBalloon_eq_af t.principal t.balloon hr12 hn

/-- Core arithmetic comparison behind C6: raising the rate does not lower the
payment; extending the term does not raise the payment but does not lower the
total of payments. -/
lemma pmt_compare_core (P FV r1 r2 : ℚ) (N : ℕ) (hP : 0 < P) (hN1 : 1 ≤ N)
    (hr1 : 0 ≤ r1) (hr12 : r1 ≤ r2) (hb0 : 0 ≤ FV) (hbP : FV ≤ P) :
    (P - FV * (1 / (1 + r1)) ^ N) / annuityFactor r1 N ≤
        (P - FV * (1 / (1 + r2)) ^ N) / annuityFactor r2 N ∧
      (P - FV * (1 / (1 + r2)) ^ (N + 12)) / annuityFactor r2 (N + 12) ≤
        (P - FV * (1 / (1 + r2)) ^ N) / annuityFactor r2 N ∧
      (P - FV * (1 / (1 + r2)) ^ N) / annuityFactor r2 N * (N : ℚ) ≤
        (P - FV * (1 / (1 + r2)) ^ (N + 12)) / annuityFactor r2 (N + 12) * ((N : ℚ) + 12) := by
  have hr2 : 0 ≤ r2 := le_trans hr1 hr12
  have hx1pos : 0 < 1 / (1 + r1) := discount_pos hr1
  have hx2pos : 0 < 1 / (1 + r2) := discount_pos hr2
  have hx12 : 1 / (1 + r2) ≤ 1 / (1 + r1) :=
    one_div_le_one_div_of_le (one_add_rate_pos hr1) (by linarith)
  have hAF2pos : 0 < annuityFactor r2 N := annuityFactor_pos hr2 hN1
  have hAF2posExt : 0 < annuityFactor r2 (N + 12) := annuityFactor_pos hr2 (by omega)
  have hAFle : annuityFactor r2 N ≤ annuityFactor r1 N := annuityFactor_anti_rate hr1 hr12 N
  have hAFterm : annuityFactor r2 N ≤ annuityFactor r2 (N + 12) :=
    annuityFactor_le_of_term hr2 (by omega)
  have hx1N : (1 / (1 + r1)) ^ N ≤ 1 := pow_le_one₀ (le_of_lt hx1pos) (discount_le_one hr1)
  have hx2N : (1 / (1 + r2)) ^ N ≤ 1 := pow_le_one₀ (le_of_lt hx2pos) (discount_le_one hr2)
  have hxpowle : (1 / (1 + r2)) ^ N ≤ (1 / (1 + r1)) ^ N :=
    pow_le_pow_left₀ (le_of_lt hx2pos) hx12 N
  have hnum2 : 0 ≤ P - FV * (1 / (1 + r2)) ^ N := by
    have := mul_le_mul_of_nonneg_left hx2N hb0
    rw [mul_one] at this
    linarith
  have hnumle : P - FV * (1 / (1 + r1)) ^ N ≤ P - FV * (1 / (1 + r2)) ^ N := by
    have := mul_le_mul_of_nonneg_left hxpowle hb0
    linarith
  have hPFV : (0 : ℚ) ≤ P - FV := by linarith
  refine ⟨div_le_div hnum2 hnumle hAF2pos hAFle, ?_, ?_⟩
  · rw [pmt_decomp hr2 hN1, pmt_decomp hr2 (by omega : 1 ≤ N + 12)]
    exact add_le_add_right (div_le_div hPFV (le_refl _) hAF2pos hAFterm) _
  · rw [pmt_decomp hr2 hN1, pmt_decomp hr2 (by omega : 1 ≤ N + 12)]
    have hpart1 : (P - FV) / annuityFactor r2 N * (N : ℚ) ≤
        (P - FV) / annuityFactor r2 (N + 12) * ((N : ℚ) + 12) := by
      rw [div_mul_eq_mul_div, div_mul_eq_mul_div, div_le_div_iff hAF2pos hAF2posExt]
      have havg := annuityFactor_avg hr2 hN1 12
      push_cast at havg
      nlinarith [mul_le_mul_of_nonneg_left havg hPFV]
    have hpart2 : r2 * FV * (N : ℚ) ≤ r2 * FV * ((N : ℚ) + 12) :=
      mul_le_mul_of_nonneg_left (by linarith) (mul_nonneg hr2 hb0)
    nlinarith [hpart1, hpart2]

/-- C6 (amended): for a consistent state with positive principal, positive
remaining term, nonnegative rate, and (for PCP) a balloon between 0 and the
principal: the accept choice does not lower `monthlyPayment` and keeps the
term; the extend choice yields a `monthlyPayment` at most the accept choice's
and a `totalInterestRemaining` at least the accept choice's.  Each hypothesis
weakening is forced by a concrete failure in `rate_rise_counterexample`: the
strict versions are false because 2-decimal rounding can equate the figures,
and without `balloon ≤ principal` the extend-vs-accept order reverses — with
`P − FV < 0` the balloon decomposition `pmt = (P − FV)/annuityFactor + r·FV`
*increases* with the term. -/
theorem rate_rise_choice_comparison (s : LoanState)
    (hP : 0 < s.principal) (hn : 0 < s.termMonthsRemaining) (hr : 0 ≤ s.annualRate)
    (hb0 : 0 ≤ balloonIfPcp s.financeType s.balloon)
    (hbP : balloonIfPcp s.financeType s.balloon ≤ s.principal)
    (hcons : s.monthlyPayment = (recalcLoanFromState s).monthlyPayment) :
    s.monthlyPayment ≤ (rateUpKeepTerm.apply s).monthlyPayment ∧
      (rateUpKeepTerm.apply s).termMonthsRemaining = s.termMonthsRemaining ∧
      (rateUpExtendTerm.apply s).monthlyPayment ≤ (rateUpKeepTerm.apply s).monthlyPayment ∧
      (rateUpKeepTerm.apply s).totalInterestOnFinance ≤
        (rateUpExtendTerm.apply s).totalInterestOnFinance := by
  obtain ⟨ft, P, b, R, n, mp, ti, cm⟩ := s
  dsimp only at hP hn hr hb0 hbP hcons ⊢
  have happly1 :
      rateUpKeepTerm.apply ⟨ft, P, b, R, n, mp, ti, cm⟩ =
        recalcLoanFromState ⟨ft, P, b, R + 1 / 100, n, mp, ti, cm + 12⟩ := rfl
  have happly2 :
      rateUpExtendTerm.apply ⟨ft, P, b, R, n, mp, ti, cm⟩ =
        recalcLoanFromState ⟨ft, P, b, R + 1 / 100, n + 12, mp, ti, cm + 12⟩ := rfl
  have hn12 : (0 : ℤ) < n + 12 := by omega
  have hR2 : (0 : ℚ) ≤ R + 1 / 100 := by linarith
  have h0 := derivedPmt_eq_af ⟨ft, P, b, R, n, mp, ti, cm⟩ hr hn
  have h1 := derivedPmt_eq_af ⟨ft, P, b, R + 1 / 100, n, mp, ti, cm + 12⟩ hR2 hn
  have h2 := derivedPmt_eq_af ⟨ft, P, b, R + 1 / 100, n + 12, mp, ti, cm + 12⟩ hR2 hn12
  dsimp only at h0 h1 h2
  have hN12 : (n + 12).toNat = n.toNat + 12 := by omega
  rw [hN12] at h2
  have hN1 : 1 ≤ n.toNat := by omega
  have hcore :=
    pmt_compare_core P (balloonIfPcp ft b) (R / 12) ((R + 1 / 100) / 12) n.toNat hP hN1
      (by positivity) (by gcongr; linarith) hb0 hbP
  have hncast : ((n : ℤ) : ℚ) = (n.toNat : ℚ) := by
    have h := Int.toNat_of_nonneg hn.le
    exact_mod_cast congrArg (fun z : ℤ => (z : ℚ)) h.symm
  have hncast12 : ((n + 12 : ℤ) : ℚ) = (n.toNat : ℚ) + 12 := by
    push_cast [← hncast]
    ring
  refine ⟨?_, rfl, ?_, ?_⟩
  · calc mp = round2 ((P - balloonIfPcp ft b * (1 / (1 + R / 12)) ^ n.toNat) /
          annuityFactor (R / 12) n.toNat) := by rw [hcons, recalc_monthlyPayment, h0]
      _ ≤ round2 ((P - balloonIfPcp ft b * (1 / (1 + (R + 1 / 100) / 12)) ^ n.toNat) /
          annuityFactor ((R + 1 / 100) / 12) n.toNat) := round2_mono hcore.1
      _ = (rateUpKeepTerm.apply ⟨ft, P, b, R, n, mp, ti, cm⟩).monthlyPayment := by
          rw [happly1, recalc_monthlyPayment, h1]
  · calc (rateUpExtendTerm.apply ⟨ft, P, b, R, n, mp, ti, cm⟩).monthlyPayment
        = round2 ((P - balloonIfPcp ft b * (1 / (1 + (R + 1 / 100) / 12)) ^ (n.toNat + 12)) /
          annuityFactor ((R + 1 / 100) / 12) (n.toNat + 12)) := by
          rw [happly2, recalc_monthlyPayment, h2]
      _ ≤ round2 ((P - balloonIfPcp ft b * (1 / (1 + (R + 1 / 100) / 12)) ^ n.toNat) /
          annuityFactor ((R + 1 / 100) / 12) n.toNat) := round2_mono hcore.2.1
      _ = (rateUpKeepTerm.apply ⟨ft, P, b, R, n, mp, ti, cm⟩).monthlyPayment := by
          rw [happly1, recalc_monthlyPayment, h1]
  · have hTI1 : (rateUpKeepTerm.apply ⟨ft, P, b, R, n, mp, ti, cm⟩).totalInterestOnFinance =
        round2 ((P - balloonIfPcp ft b * (1 / (1 + (R + 1 / 100) / 12)) ^ n.toNat) /
            annuityFactor ((R + 1 / 100) / 12) n.toNat * (n.toNat : ℚ) +
          balloonIfPcp ft b - P) := by
      rw [happly1, recalc_totalInterest]
      dsimp only
      rw [h1, hncast]
    have hTI2 : (rateUpExtendTerm.apply ⟨ft, P, b, R, n, mp, ti, cm⟩).totalInterestOnFinance =
        round2 ((P - balloonIfPcp ft b * (1 / (1 + (R + 1 / 100) / 12)) ^ (n.toNat + 12)) /
            annuityFactor ((R + 1 / 100) / 12) (n.toNat + 12) * ((n.toNat : ℚ) + 12) +
          balloonIfPcp ft b - P) := by
      rw [happly2, recalc_totalInterest]
      dsimp only
      rw [h2, hncast12]
    rw [hTI1, hTI2]
    refine round2_mono ?_
    linarith [hcore.2.2]

def c6BadState : LoanState := ⟨.loan, 1/100, 0, 0, 12, 0, 0, 0⟩

def c6BalloonState : LoanState := ⟨.pcp, 1000, 5000, 0, 1, -4000, 0, 0⟩

/-- C6 counterexample, two concrete failures of the claim as stated (both
states are consistent, with `principal > 0` and `termMonths > 0`).
First, strictness fails: with principal `0.01`, rate `0`, term `12` (stored
`monthlyPayment` is `round2(0.01/12) = 0`), the accept choice's recomputed
`monthlyPayment` is again `0` after rounding — not strictly greater.
Second, the extend-vs-accept order fails when the balloon exceeds the
principal (reachable, since validation compares the balloon only against the
cash price, cf. C10): on the PCP state with principal `1000`, balloon `5000`,
rate `0`, term `1`, the accept choice pays `−3999.17` per month while the
extend choice pays `−305.32` — extend is strictly greater, not `≤`. -/
theorem rate_rise_counterexample :
    (0 < c6BadState.principal ∧ 0 < c6BadState.termMonthsRemaining ∧
        c6BadState.monthlyPayment = (recalcLoanFromState c6BadState).monthlyPayment ∧
        ¬(c6BadState.monthlyPayment < (rateUpKeepTerm.apply c6BadState).monthlyPayment)) ∧
      (0 < c6BalloonState.principal ∧ 0 < c6BalloonState.termMonthsRemaining ∧
        c6BalloonState.monthlyPayment = (recalcLoanFromState c6BalloonState).monthlyPayment ∧
        ¬((rateUpExtendTerm.apply c6BalloonState).monthlyPayment ≤
            (rateUpKeepTerm.apply c6BalloonState).monthlyPayment)) := by
  refine ⟨⟨by norm_num [c6BadState], by norm_num [c6BadState], ?_, ?_⟩,
    ⟨by norm_num [c6BalloonState], by norm_num [c6BalloonState], ?_, ?_⟩⟩
  · norm_num [c6BadState, recalcLoanFromState, derivedPmt, pmtLoan, round2]
  · norm_num [c6BadState, rateUpKeepTerm, recalcLoanFromState, derivedPmt, pmtLoan, round2]
  · norm_num [c6BalloonState, recalcLoanFromState, derivedPmt, pmtWithBalloon,
      balloonIfPcp, round2]
  · norm_num [c6BalloonState, rateUpKeepTerm, rateUpExtendTerm, recalcLoanFromState,
      derivedPmt, pmtWithBalloon, balloonIfPcp, round2]

def c6State : LoanState := ⟨.loan, 1200, 0, 0, 12, 100, 0, 0⟩

lemma c6State_consistent : c6State.monthlyPayment = (recalcLoanFromState c6State).monthlyPayment := by
  norm_num [c6State, recalcLoanFromState, derivedPmt, pmtLoan, round2]

/-- C6 witness: the consistent loan state with principal 1200, rate 0 and 12
months remaining. -/
theorem rate_rise_choice_comparison_witness :
    (0 < c6State.principal ∧ 0 < c6State.termMonthsRemaining ∧ 0 ≤ c6State.annualRate ∧
        0 ≤ balloonIfPcp c6State.financeType c6State.balloon ∧
        balloonIfPcp c6State.financeType c6State.balloon ≤ c6State.principal ∧
        c6State.monthlyPayment = (recalcLoanFromState c6State).monthlyPayment) ∧
      (c6State.monthlyPayment ≤ (rateUpKeepTerm.apply c6State).monthlyPayment ∧
        (rateUpKeepTerm.apply c6State).termMonthsRemaining = c6State.termMonthsRemaining ∧
        (rateUpExtendTerm.apply c6State).monthlyPayment ≤
          (rateUpKeepTerm.apply c6State).monthlyPayment ∧
        (rateUpKeepTerm.apply c6State).totalInterestOnFinance ≤
          (rateUpExtendTerm.apply c6State).totalInterestOnFinance) :=
  ⟨⟨by norm_num [c6State], by norm_num [c6State], by norm_num [c6State],
      by norm_num [c6State, balloonIfPcp], by norm_num [c6State, balloonIfPcp],
      c6State_consistent⟩,
    rate_rise_choice_comparison c6State (by norm_num [c6State]) (by norm_num [c6State])
      (by norm_num [c6State]) (by norm_num [c6State, balloonIfPcp])
      (by norm_num [c6State, balloonIfPcp]) c6State_consistent⟩

end CarFinance
